import Mathlib

/-!
Shallow embedding of the CMS admin-dashboard backend (FastAPI/Firestore),
covering the role-based authorization pipeline (`app/core/auth.py`), the
audit sink (`app/core/audit.py`), the in-memory search engine
(`app/services/search.py` with `app/repositories/students.py`), and the
bulk CSV import pipeline (`app/services/bulk_operations.py`).

External collaborators (the Firebase token verifier and the Firestore
document store) are modelled as explicit input data: each store read,
store write or provider verification is represented by the outcome the
collaborator reports, and the embedded functions reproduce how the Python
code reacts to each outcome.  Python exceptions become `Except` values;
machine-level concerns (timestamps, datetimes) are modelled as `Nat`.
-/

/-! ## String primitives used by the search and bulk pipelines

Python string operations (`.lower()`, `.strip()`, `.split()`, `in`,
`<`/`<=` comparison) modelled over the character list of a `String`.
Everything is kernel-reducible so concrete scenarios evaluate by `decide`. -/

/-- Python `str.lower()` (ASCII case mapping, which covers every string in
this development). -/
def pyLower (s : String) : String := ⟨s.data.map Char.toLower⟩

/-- Python `str.upper()` (ASCII case mapping). -/
def pyUpper (s : String) : String := ⟨s.data.map Char.toUpper⟩

/-- Whitespace in the sense of Python `str.split()` / `str.strip()` /
the regex class `\s` (ASCII range). -/
def isPySpace (c : Char) : Bool :=
  c = ' ' || c.toNat = 9 || c.toNat = 10 || c.toNat = 13 || c.toNat = 11 || c.toNat = 12

/-- Python `str.strip()`: drop leading and trailing whitespace. -/
def pyStrip (s : String) : String :=
  ⟨((s.data.dropWhile isPySpace).reverse.dropWhile isPySpace).reverse⟩

/-- Accumulator pass for `pySplitWs`. -/
def pySplitWsAux : List Char → List Char → List String
  | [], acc => if acc.isEmpty then [] else [⟨acc.reverse⟩]
  | c :: cs, acc =>
      if isPySpace c then
        if acc.isEmpty then pySplitWsAux cs [] else (⟨acc.reverse⟩ : String) :: pySplitWsAux cs []
      else pySplitWsAux cs (c :: acc)

/-- Python `str.split()` with no argument: split on runs of whitespace,
discarding empty pieces. -/
def pySplitWs (s : String) : List String := pySplitWsAux s.data []

/-- Whether `needle` is a prefix-aligned match of `hay` (helper for the
substring test). -/
def charsStartWith : List Char → List Char → Bool
  | [], _ => true
  | _ :: _, [] => false
  | a :: as, b :: bs => a == b && charsStartWith as bs

/-- Whether `needle` occurs as a contiguous substring of the second list. -/
def hasSubstr (needle : List Char) : List Char → Bool
  | [] => charsStartWith needle []
  | c :: rest => charsStartWith needle (c :: rest) || hasSubstr needle rest

/-- Python `needle in hay` on strings (substring containment). -/
def containsSub (hay needle : String) : Bool := hasSubstr needle.data hay.data

/-- Python string `<=`: lexicographic comparison by code point. -/
def charListLe : List Char → List Char → Bool
  | [], _ => true
  | _ :: _, [] => false
  | a :: as, b :: bs =>
      if a.toNat < b.toNat then true
      else if b.toNat < a.toNat then false
      else charListLe as bs

/-- Python string `<`: strict lexicographic comparison by code point. -/
def charListLt : List Char → List Char → Bool
  | [], [] => false
  | [], _ :: _ => true
  | _ :: _, [] => false
  | a :: as, b :: bs =>
      if a.toNat < b.toNat then true
      else if b.toNat < a.toNat then false
      else charListLt as bs

/-- Python `a <= b` on strings. -/
def strLeB (a b : String) : Bool := charListLe a.data b.data

/-- Python `a < b` on strings. -/
def strLtB (a b : String) : Bool := charListLt a.data b.data

/-! ## Error taxonomy and principals (`app/core/auth.py`) -/

/-- `UserRole` enum from `auth.py` (closed two-value enum, values
`"admin"` and `"staff"`). -/
inductive UserRole
  | admin
  | staff
deriving DecidableEq, Repr

/-- The `.value` of the role enum, as persisted (enums persist as strings). -/
def UserRole.value : UserRole → String
  | .admin => "admin"
  | .staff => "staff"

/-- `UserRole(role_str)` from Python: succeeds exactly on the two enum
values, otherwise raises `ValueError` (here: `none`). -/
def parseUserRole (s : String) : Option UserRole :=
  if s = "admin" then some .admin
  else if s = "staff" then some .staff
  else none

/-- `AuthenticatedUser` pydantic model (`auth.py`): uid, email, role, and
optional display name.  The model sets `use_enum_values = True` (auth.py
line 88), so after validation `role` holds the PLAIN VALUE STRING of the
`UserRole` enum, not the enum member - a `.value` attribute access on it
raises `AttributeError` at runtime.  String-enum equality still works
(`"staff" == UserRole.STAFF` in Python).  `created_at` / `last_login` are
never set on the per-request principal and are omitted. -/
structure AuthenticatedUser where
  uid : String
  email : String
  role : String
  name : Option String
deriving DecidableEq, Repr

/-- The guard outcomes of `auth.py`: the exception classes `AuthError`
(code `"AUTH"`, HTTP 401) and `ForbiddenError` (code `"FORBIDDEN"`, HTTP
403), plus `pyError` for an unhandled Python exception escaping the
dependency - such as the `AttributeError` raised by `.value` access on a
`use_enum_values` string field - which no handler maps (HTTP 500).
`detailsError` is the `details["error"]` string the code attaches. -/
inductive GuardError
  | authError (message : String) (detailsError : String)
  | forbiddenError (message : String)
  | pyError (message : String)
deriving DecidableEq, Repr

/-- Whether a guard outcome is the `ForbiddenError` class. -/
def GuardError.isForbidden : GuardError → Bool
  | .forbiddenError _ => true
  | _ => false

/-! ## Token verification (`FirebaseAuthManager.verify_token`) -/

/-- Decoded token claims, as read from the provider's decoded dict via
`.get("uid") / .get("email") / .get("name")` (each may be absent). -/
structure DecodedToken where
  uid : Option String
  email : Option String
  name : Option String
deriving DecidableEq, Repr

/-- Outcome reported by the external identity provider for one token:
either decoded claims, or one of the distinguishable failure conditions
(`InvalidIdTokenError`, `ExpiredIdTokenError`, `RevokedIdTokenError`, or
any other exception). -/
inductive ProviderResult
  | ok (uid : Option String) (email : Option String) (name : Option String)
  | invalidToken
  | expiredToken
  | revokedToken
  | unexpectedError (msg : String)
deriving DecidableEq, Repr

/-- Python `isinstance(e, InvalidIdTokenError)`.  In `firebase_admin`,
`ExpiredIdTokenError` and `RevokedIdTokenError` are SUBCLASSES of
`InvalidIdTokenError`, so this test holds for all three token
conditions. -/
def isInvalidIdTokenError : ProviderResult → Bool
  | .invalidToken => true
  | .expiredToken => true
  | .revokedToken => true
  | _ => false

/-- Python `isinstance(e, ExpiredIdTokenError)`. -/
def isExpiredIdTokenError : ProviderResult → Bool
  | .expiredToken => true
  | _ => false

/-- Python `isinstance(e, RevokedIdTokenError)`. -/
def isRevokedIdTokenError : ProviderResult → Bool
  | .revokedToken => true
  | _ => false

/-- `FirebaseAuthManager.verify_token` (`auth.py` lines 127-195): the
`except` clauses are tried in source order, each an `isinstance` test
against the provider's exception hierarchy.  Because expired and revoked
are subclasses of invalid, the FIRST clause (auth.py line 157) catches
all three token conditions; the dedicated expired/revoked branches
(auth.py lines 167-185) are dead code. -/
def verify_token (res : ProviderResult) : Except GuardError DecodedToken :=
  match res with
  | .ok uid email name => .ok ⟨uid, email, name⟩
  | e =>
      if isInvalidIdTokenError e then
        .error (.authError "Invalid authentication token" "Token validation failed")
      else if isExpiredIdTokenError e then
        .error (.authError "Authentication token has expired" "Token expired")
      else if isRevokedIdTokenError e then
        .error (.authError "Authentication token has been revoked" "Token revoked")
      else
        .error (.authError "Authentication verification failed" "Unexpected verification error")

/-! ## Role resolution (`FirebaseAuthManager.get_user_role`) -/

/-- A stored document in the `users` collection.  `to_dict()` may lack any
key, so every field is optional; timestamps are `Nat`. -/
structure UserDoc where
  role : Option String
  created_at : Option Nat
  last_login : Option Nat
  status : Option String
deriving DecidableEq, Repr

/-- Outcome of `users.document(uid).get()`: the document exists, is
missing, or the store read itself raises. -/
inductive StoreGetResult
  | found (doc : UserDoc)
  | missing
  | failure (msg : String)
deriving DecidableEq, Repr

/-- The write `get_user_role` performs on the users collection (observed
effect): nothing, `_create_default_user`s `set`, or `_update_user_role`s
`update` of the role field. -/
inductive RoleStoreEffect
  | noWrite
  | createdDefault (doc : UserDoc)
  | correctedRole (role : String)
deriving DecidableEq, Repr

/-- The document written by `_create_default_user` (`auth.py` lines
254-282): role `"staff"`, both timestamps now, status `"active"`. -/
def defaultUserDoc (now : Nat) : UserDoc :=
  ⟨some "staff", some now, some now, some "active"⟩

/-- `FirebaseAuthManager.get_user_role` (`auth.py` lines 197-252).
Missing document: create a default staff record and return staff.
Existing document: `user_data.get("role", "staff")`, parse against the
closed enum; on `ValueError` write the corrected staff role back and
return staff.  Store read failure: raise `AuthError`.  (The write helpers
`_create_default_user` / `_update_user_role` swallow their own store
failures, so the effect here records the attempted write.) -/
def get_user_role (res : StoreGetResult) (now : Nat) :
    Except GuardError (UserRole × RoleStoreEffect) :=
  match res with
  | .missing => .ok (.staff, .createdDefault (defaultUserDoc now))
  | .found doc =>
      let role_str := doc.role.getD "staff"
      match parseUserRole role_str with
      | some r => .ok (r, .noWrite)
      | none => .ok (.staff, .correctedRole "staff")
  | .failure _ =>
      .error (.authError "Failed to retrieve user permissions" "Role retrieval failed")

/-! ## The authorization pipeline (`extract_token_from_header`,
`authenticate_user`, `require_role`) -/

/-- `extract_token_from_header` (`auth.py` lines 340-377): the credential
is an optional (scheme, token) pair; missing header, non-bearer scheme and
empty token each raise a distinct `AuthError`. -/
def extract_token_from_header (cred : Option (String × String)) :
    Except GuardError String :=
  match cred with
  | none => .error (.authError "Authentication required" "Missing Authorization header")
  | some (scheme, token) =>
      if pyLower scheme ≠ "bearer" then
        .error (.authError "Invalid authentication scheme" "Expected Bearer token")
      else if token = "" then
        .error (.authError "Authentication token required" "Empty token provided")
      else .ok token

/-- `authenticate_user` (`auth.py` lines 380-450), with the provider's
verdict and the users-store read outcome supplied as environment data.
After verification: missing uid raises `AuthError`; then the role is
resolved (possibly writing to the store); `update_last_login` failures are
swallowed; finally the `AuthenticatedUser` is constructed - a missing
email makes the pydantic constructor raise, which the catch-all turns
into `AuthError("Authentication failed")`; `use_enum_values` stores the
role as the plain value string. -/
def authenticate_user (cred : Option (String × String)) (prov : ProviderResult)
    (roleRes : StoreGetResult) (now : Nat) :
    Except GuardError (AuthenticatedUser × RoleStoreEffect) :=
  match extract_token_from_header cred with
  | .error e => .error e
  | .ok _token =>
    match verify_token prov with
    | .error e => .error e
    | .ok decoded =>
      match decoded.uid with
      | none =>
          .error (.authError "Invalid token: missing user ID" "Token missing required claims")
      | some uid =>
          match get_user_role roleRes now with
          | .error e => .error e
          | .ok (role, eff) =>
              match decoded.email with
              | none =>
                  .error (.authError "Authentication failed" "Unexpected authentication error")
              | some email => .ok (⟨uid, email, role.value, decoded.name⟩, eff)

/-- The unhandled exception raised by a `.value` access on the plain-str
role of an `AuthenticatedUser`, as evaluated inside the log f-strings of
`role_checker` (auth.py lines 489 and 506). -/
def attrErrorRoleValue : GuardError :=
  .pyError "AttributeError: user.role is a plain str and has no value attribute"

/-- `role_checker` inside `require_role` (`auth.py` lines 474-514).  The
membership test itself works (`user.role` is a str and a str-enum member
equals its value string), but BOTH branches then eagerly evaluate a log
f-string containing `user.role.value` (the denied branch at line 489, the
allowed branch at line 506), which raises `AttributeError` because
`user.role` is a plain str - so the `raise ForbiddenError` at line 497
and the `return user` at line 514 are both unreachable, and every call
escapes with the unhandled exception (HTTP 500). -/
def role_checker (required : List UserRole) (user : AuthenticatedUser) :
    Except GuardError AuthenticatedUser :=
  if user.role ∈ required.map UserRole.value then
    .error attrErrorRoleValue
  else
    .error attrErrorRoleValue

/-- The full guard produced by `require_role` (`auth.py` lines 453-516):
`authenticate_user` composed with `role_checker`. -/
def require_role_pipeline (required : List UserRole) (cred : Option (String × String))
    (prov : ProviderResult) (roleRes : StoreGetResult) (now : Nat) :
    Except GuardError AuthenticatedUser :=
  match authenticate_user cred prov roleRes now with
  | .error e => .error e
  | .ok (user, _) => role_checker required user

/-! ## Audit sink (`app/core/audit.py`) -/

/-- `AuditLogEntry` pydantic model (`audit.py` lines 62-85), restricted to
the fields `log_action` fills (timestamps and request info carried as given;
details as a string map). -/
structure AuditLogEntry where
  user_id : String
  user_email : String
  user_role : String
  action : String
  target_type : String
  target_id : Option String
  severity : String
  details : List (String × String)
  success : Bool
  error_message : Option String
deriving DecidableEq, Repr

/-- Outcome of the Firestore `collection.add(audit_data)` call: either the
generated document id or a raised exception. -/
inductive AuditWriteResult
  | ok (docId : String)
  | failure (msg : String)
deriving DecidableEq, Repr

/-- Python `.value` attribute access on the runtime value of a
`use_enum_values` enum field: the field holds a plain `str`, which has no
`.value` attribute, so the access raises `AttributeError` for every
string (`none`). -/
def pyStrValue (s : String) : Option String := none

/-- The message of the `AttributeError` raised at audit.py line 142. -/
def auditAttrError : String :=
  "AttributeError: user.role is a plain str and has no value attribute"

/-- The `AuditLogEntry(...)` construction at the top of `log_action`
(`audit.py` lines 139-152): it evaluates `user.role.value` (line 142),
and `user.role` is a plain str (`use_enum_values` on
`AuthenticatedUser`), so the construction always raises before any entry
exists. -/
def build_audit_entry (user : AuthenticatedUser) (action target_type : String)
    (target_id : Option String) (severity : String)
    (details : List (String × String)) (success : Bool)
    (error_message : Option String) : Except String AuditLogEntry :=
  match pyStrValue user.role with
  | none => .error auditAttrError
  | some rv =>
      .ok ⟨user.uid, user.email, rv, action, target_type, target_id,
        severity, details, success, error_message⟩

/-- `AuditLogger.log_action` (`audit.py` lines 103-191): build the entry
inside the `try`, attempt the store write, return the document id; any
exception - including the `AttributeError` the entry construction raises -
is caught and the sentinel `"audit_log_failed"` is returned instead of
propagating. -/
def log_action (user : AuthenticatedUser) (action : String) (target_type : String)
    (target_id : Option String) (severity : String)
    (details : List (String × String)) (success : Bool)
    (error_message : Option String)
    (write : AuditLogEntry → AuditWriteResult) : String :=
  match build_audit_entry user action target_type target_id severity details
      success error_message with
  | .error _ => "audit_log_failed"
  | .ok entry =>
      match write entry with
      | .ok docId => docId
      | .failure _ => "audit_log_failed"

/-- A raw stored audit document as returned by the query stream: the doc
id plus the fields `AuditLogEntry(**data)` requires, each possibly absent,
and whether the stored timestamp string parses back. -/
structure RawAuditDoc where
  docId : String
  user_id : Option String
  user_email : Option String
  user_role : Option String
  action : Option String
  target_type : Option String
  timestampOk : Bool
deriving DecidableEq, Repr

/-- A parsed audit log entry on the read path (`get_audit_logs`). -/
structure ParsedAudit where
  id : String
  user_id : String
  user_email : String
  user_role : String
  action : String
  target_type : String
deriving DecidableEq, Repr

/-- The per-document parse inside `get_audit_logs` (`audit.py` lines
402-412): `AuditLogEntry(**data)` with the timestamp round-trip; a
malformed document yields `none` and is skipped. -/
def parse_audit_doc (d : RawAuditDoc) : Option ParsedAudit :=
  if !d.timestampOk then none
  else
    match d.user_id, d.user_email, d.user_role, d.action, d.target_type with
    | some a, some b, some c, some e, some f => some ⟨d.docId, a, b, c, e, f⟩
    | _, _, _, _, _ => none

/-- Outcome of executing the filtered/ordered/paginated audit query
against the store (`query.stream()`): a list of raw documents, or the
query itself raising. -/
inductive AuditQueryResult
  | ok (docs : List RawAuditDoc)
  | failure (msg : String)
deriving DecidableEq, Repr

/-- `AuditLogger.get_audit_logs` (`audit.py` lines 344-429): filters,
ordering and pagination are delegated to the store (the supplied query
outcome); malformed documents are skipped; if the query raises, the
catch-all returns the empty list. -/
def get_audit_logs (res : AuditQueryResult) : List ParsedAudit :=
  match res with
  | .ok docs => docs.filterMap parse_audit_doc
  | .failure _ => []

/-! ## Search engine data model (`app/services/search.py`) -/

/-- `SortOrder` enum. -/
inductive SortOrder
  | asc
  | desc
deriving DecidableEq, Repr

/-- `SearchField` enum: the searchable/sortable fields of a student
record. -/
inductive SearchField
  | name
  | email
  | phone
  | country
  | grade
  | application_status
  | last_active
  | created_at
  | updated_at
deriving DecidableEq, Repr

/-- `Student` pydantic model (`app/schemas/student.py`): enums persist as
strings (`use_enum_values`), datetimes are modelled as `Nat`.  The
optional `ai_summary` field is never touched by search, filters or export
field access in the verified claims and is omitted. -/
structure Student where
  id : String
  name : String
  email : String
  phone : Option String
  country : String
  grade : Option String
  application_status : String
  last_active : Nat
  created_at : Nat
  updated_at : Nat
deriving DecidableEq, Repr

/-- A dynamically-typed field value as produced by
`getattr(student, field, None)`: a string (enum values included), a
datetime, or Python `None`. -/
inductive FieldVal
  | s (v : String)
  | dt (v : Nat)
  | vnone
deriving DecidableEq, Repr, BEq

/-- A filter's `value`, which the API accepts as `Any`: a scalar or a
list (for the `in` operator). -/
inductive FilterVal
  | single (v : FieldVal)
  | many (vs : List FieldVal)
deriving DecidableEq, Repr, BEq

/-- `SearchFilter` pydantic model, also standing for the flat filter
dicts `_build_firestore_query` produces (same three components).  A
filter is always client-supplied, so at runtime its `field` is the plain
value string (`use_enum_values`); the semantic field is recorded here and
the `.value` crash this causes is modelled where it occurs, in
`build_firestore_filters`. -/
structure SearchFilter where
  field : SearchField
  operator : String
  value : FilterVal
deriving DecidableEq, Repr

/-- `DateRangeFilter` pydantic model. -/
structure DateRangeFilter where
  field : SearchField
  start_date : Option Nat
  end_date : Option Nat
deriving DecidableEq, Repr

/-- The runtime value of an enum-typed field on a `use_enum_values`
pydantic model: pydantic does not validate DEFAULTS, so a field left at
its default still holds the enum member (or enum list), while a
client-supplied value is validated and stored as the plain value
string(s).  The payload records the semantic value in both cases - the
stored string is exactly the member's `.value`, and string-enum `==`
comparisons agree on it - but a `.value` attribute access succeeds only
in the `defaulted` case and raises `AttributeError` in the `supplied`
case. -/
inductive RtEnum (α : Type)
  | defaulted (a : α)
  | supplied (a : α)
deriving DecidableEq, Repr

/-- The semantic value a runtime enum field carries either way. -/
def RtEnum.val {α : Type} : RtEnum α → α
  | .defaulted a => a
  | .supplied a => a

/-- `SearchQuery` pydantic model at runtime.  The pydantic field
constraints (`1 <= limit <= 1000`, `0 <= offset`) hold of every query the
service can receive; `offset`/`limit` are `Nat` here.  The enum-typed
fields are `RtEnum`: their pydantic defaults are
`search_fields = [NAME, EMAIL]`, `sort_field = CREATED_AT`,
`sort_order = DESC`, and a client-supplied value becomes a plain value
string on which `.value` access raises.  `application_statuses` members
are the validated status value strings. -/
structure SearchQuery where
  text_query : Option String
  search_fields : RtEnum (List SearchField)
  filters : List SearchFilter
  date_filters : List DateRangeFilter
  application_statuses : Option (List String)
  countries : Option (List String)
  sort_field : RtEnum SearchField
  sort_order : RtEnum SortOrder
  limit : Nat
  offset : Nat
deriving DecidableEq, Repr

/-- `page_info` dict built by `search_students`. -/
structure PageInfo where
  limit : Nat
  offset : Nat
  current_page : Nat
  total_pages : Nat
  has_next : Bool
  has_previous : Bool
deriving DecidableEq, Repr

/-- `SearchResult` (students, counts and page info; the timing-only
`search_metadata` dict is omitted). -/
structure SearchResultModel where
  students : List Student
  total_count : Nat
  filtered_count : Nat
  page_info : PageInfo
deriving DecidableEq, Repr

/-- `getattr(student, field.value, None)` for the nine search fields
(missing optional fields give Python `None`). -/
def getField (st : Student) : SearchField → FieldVal
  | .name => .s st.name
  | .email => .s st.email
  | .phone => match st.phone with | some p => .s p | none => .vnone
  | .country => .s st.country
  | .grade => match st.grade with | some g => .s g | none => .vnone
  | .application_status => .s st.application_status
  | .last_active => .dt st.last_active
  | .created_at => .dt st.created_at
  | .updated_at => .dt st.updated_at

/-- Python truthiness of a field value (`if field_value:`): `None` and the
empty string are falsy; datetimes are always truthy. -/
def FieldVal.truthy : FieldVal → Bool
  | .vnone => false
  | .s v => !(v == "")
  | .dt _ => true

/-- Python `str(value)` of a field value.  Datetimes stringify to their
textual form; the `Nat` numeral stands in for it (no claim compares a
datetime's text against a string field). -/
def FieldVal.pyStr : FieldVal → String
  | .s v => v
  | .dt n => toString n
  | .vnone => "None"

/-- Python `str(value)` of a filter value (a list stringifies to its
bracketed form). -/
def FilterVal.pyStrF : FilterVal → String
  | .single v => v.pyStr
  | .many vs => "[" ++ String.intercalate ", " (vs.map FieldVal.pyStr) ++ "]"

/-- Python `a <= b` on two field values.  Comparing a string against a
datetime raises `TypeError` in Python; such mixed comparisons never occur
(a fixed field always yields one shape) and are modelled as `false`. -/
def FieldVal.leB : FieldVal → FieldVal → Bool
  | .s a, .s b => strLeB a b
  | .dt a, .dt b => decide (a ≤ b)
  | _, _ => false


/-- The maximum `limit` accepted by `SearchService` (`self.max_results`). -/
def max_results : Nat := 1000

/-- The operator whitelist of `_validate_search_query`. -/
def valid_operators : List String :=
  ["eq", "ne", "gt", "gte", "lt", "lte", "contains", "in"]

/-- `SearchService._validate_search_query` (`search.py` lines 438-471):
returns the message of the first `ValidationError` raised, or `none` when
the query is valid. -/
def validate_search_query (q : SearchQuery) : Option String :=
  if q.limit > max_results then some "Search limit too high"
  else
    match q.filters.find? (fun f => !valid_operators.contains f.operator) with
    | some _ => some "Invalid filter operator"
    | none =>
        match q.date_filters.find? (fun df =>
            match df.start_date, df.end_date with
            | some s, some e => decide (s > e)
            | _, _ => false) with
        | some _ => some "Start date must be before end date"
        | none => none

/-- The `AttributeError` raised by a `.value` access on a plain-str
`use_enum_values` field of the query or of one of its filters. -/
def attrErrorFieldValue : String :=
  "AttributeError: a use_enum_values field is a plain str and has no value attribute"

/-- `SearchService._build_firestore_query` (`search.py` lines 473-524).
Filter fields, date-filter fields and the status list are client-supplied
and hence plain strs (`use_enum_values`), and the builder reads `.value`
on them (lines 487, 496, 503, 513): any explicit filter, any date-filter
bound, or a non-empty status list raises `AttributeError` (surfacing as
the generic `AppError` of `search_students`).  Only the country
convenience filter (lines 517-522, no `.value` access) can reach the flat
filter list; an empty status/country list is falsy and contributes
nothing. -/
def build_firestore_filters (q : SearchQuery) : Except String (List SearchFilter) :=
  if !q.filters.isEmpty then .error attrErrorFieldValue
  else if q.date_filters.any (fun df => df.start_date.isSome || df.end_date.isSome) then
    .error attrErrorFieldValue
  else if (match q.application_statuses with
           | some ss => !ss.isEmpty
           | none => false) then .error attrErrorFieldValue
  else
    .ok (match q.countries with
      | some cs =>
          if cs.isEmpty then [] else [⟨.country, "in", .many (cs.map FieldVal.s)⟩]
      | none => [])

/-- The `TypeError` raised by an unsupported Python comparison. -/
def typeErrorMsg : String := "TypeError: unsupported comparison"

/-- Python `student_value > filter_value` for a truthy field value:
defined for string-vs-string and datetime-vs-datetime; any other pairing
(mixed types, or a scalar compared against a list payload) raises
`TypeError` (`none`). -/
def pyGtCmp : FieldVal → FilterVal → Option Bool
  | .s x, .single (.s y) => some (strLtB y x)
  | .dt m, .single (.dt n) => some (decide (n < m))
  | _, _ => none

/-- Python `student_value >= filter_value` (as `pyGtCmp`). -/
def pyGeCmp : FieldVal → FilterVal → Option Bool
  | .s x, .single (.s y) => some (strLeB y x)
  | .dt m, .single (.dt n) => some (decide (n ≤ m))
  | _, _ => none

/-- Python `student_value < filter_value` (as `pyGtCmp`). -/
def pyLtCmp : FieldVal → FilterVal → Option Bool
  | .s x, .single (.s y) => some (strLtB x y)
  | .dt m, .single (.dt n) => some (decide (m < n))
  | _, _ => none

/-- Python `student_value <= filter_value` (as `pyGtCmp`). -/
def pyLeCmp : FieldVal → FilterVal → Option Bool
  | .s x, .single (.s y) => some (strLeB x y)
  | .dt m, .single (.dt n) => some (decide (m ≤ n))
  | _, _ => none

/-- Python `student_value in filter_value`: membership in a list is by
equality and never raises; membership in a string is substring search and
requires a string left operand; anything else raises `TypeError`. -/
def pyInCmp : FieldVal → FilterVal → Option Bool
  | sv, .many vs => some (vs.contains sv)
  | .s x, .single (.s y) => some (hasSubstr x.data y.data)
  | _, .single _ => none

/-- One operator application from `_execute_filtered_query` (`search.py`
lines 554-578): `.ok true` means the record passes this filter, `.ok
false` that it is excluded, `.error` that the Python comparison raised
`TypeError` - which aborts the whole search (wrapped into `AppError` by
`search_students`).  The truthiness guard short-circuits before the
ordered comparison, exactly as `student_value and student_value >
filter_value` does, so a falsy field never raises. -/
def apply_operator (sv : FieldVal) (op : String) (fv : FilterVal) :
    Except String Bool :=
  if op = "eq" then .ok (match fv with | .single v => sv == v | .many _ => false)
  else if op = "ne" then .ok (match fv with | .single v => !(sv == v) | .many _ => true)
  else if op = "gt" then
    if !sv.truthy then .ok false
    else match pyGtCmp sv fv with
      | some b => .ok b
      | none => .error typeErrorMsg
  else if op = "gte" then
    if !sv.truthy then .ok false
    else match pyGeCmp sv fv with
      | some b => .ok b
      | none => .error typeErrorMsg
  else if op = "lt" then
    if !sv.truthy then .ok false
    else match pyLtCmp sv fv with
      | some b => .ok b
      | none => .error typeErrorMsg
  else if op = "lte" then
    if !sv.truthy then .ok false
    else match pyLeCmp sv fv with
      | some b => .ok b
      | none => .error typeErrorMsg
  else if op = "contains" then
    .ok (sv.truthy && containsSub (pyLower sv.pyStr) (pyLower fv.pyStrF))
  else if op = "in" then
    match pyInCmp sv fv with
    | some b => .ok b
    | none => .error typeErrorMsg
  else .ok true

/-- Whether a student passes every filter: the per-record loop of
`_execute_filtered_query`, which short-circuits on the first failing
predicate; a `TypeError` from any comparison propagates. -/
def passes_filters (st : Student) : List SearchFilter → Except String Bool
  | [] => .ok true
  | fc :: rest =>
      match apply_operator (getField st fc.field) fc.operator fc.value with
      | .error e => .error e
      | .ok false => .ok false
      | .ok true => passes_filters st rest

/-- `SearchService._execute_filtered_query` (`search.py` lines 526-583)
applied to an already-loaded snapshot: records are tested in order and
the first raising comparison aborts the whole query. -/
def execute_filtered_query : List Student → List SearchFilter → Except String (List Student)
  | [], _ => .ok []
  | st :: rest, fcs =>
      match passes_filters st fcs with
      | .error e => .error e
      | .ok keep =>
          match execute_filtered_query rest fcs with
          | .error e => .error e
          | .ok tail => .ok (if keep then st :: tail else tail)

/-- `StudentRepository.list_students` (`repositories/students.py` lines
189-244) with no name/email/status filter, as the search service calls
it: the store list stands for the query-ordered collection, the limit is
clamped to `min(max(limit, 1), 100)`, then offset and limit are applied.
(Documents that fail to parse are skipped; the model takes the store to
hold well-formed records.) -/
def list_students (store : List Student) (lim off : Nat) : List Student :=
  let lim := min (max lim 1) 100
  (store.drop off).take lim

/-- `SearchService._apply_text_search` (`search.py` lines 585-612): split
the lower-cased query on whitespace; keep a record iff some configured
search field is truthy and contains every term (AND across terms, OR
across fields).  An absent or empty query leaves the list unchanged.
When `search_fields` was explicitly supplied its members are plain strs
and the loop body reads `field.value` (line 599): the first record of a
non-empty list against a non-empty supplied field list raises
`AttributeError` (an empty field list matches nothing without ever
touching `.value`). -/
def apply_text_search (students : List Student) (q : SearchQuery) :
    Except String (List Student) :=
  match q.text_query with
  | none => .ok students
  | some t =>
      if t = "" then .ok students
      else
        let terms := pySplitWs (pyLower t)
        match q.search_fields with
        | .defaulted fields =>
            .ok (students.filter fun st =>
              fields.any fun f =>
                let fv := getField st f
                fv.truthy && terms.all fun term => containsSub (pyLower fv.pyStr) term)
        | .supplied fields =>
            if fields.isEmpty then .ok []
            else if students.isEmpty then .ok []
            else .error attrErrorFieldValue

/-- The date-typed sort fields of `_apply_sorting`
(`LAST_ACTIVE`, `CREATED_AT`, `UPDATED_AT`). -/
def isDateField : SearchField → Bool
  | .last_active => true
  | .created_at => true
  | .updated_at => true
  | _ => false

/-- `get_sort_key` inside `_apply_sorting` (`search.py` lines 617-628):
`None` becomes `datetime.min` (here `dt 0`) for date fields and the empty
string otherwise; enum values sort by their string value. -/
def sortKey (f : SearchField) (st : Student) : FieldVal :=
  match getField st f with
  | .vnone => if isDateField f then .dt 0 else .s ""
  | v => v

/-- The comparison `sorted(..., key=get_sort_key, reverse=...)` sorts by,
for the (reachable, enum-defaulted) sort field `f`: ascending compares
keys directly, descending flips the comparison (both directions stable,
equal keys keeping original order, as Python's sort guarantees). -/
def sortLeB (f : SearchField) (ord : SortOrder) (a b : Student) : Bool :=
  match ord with
  | .asc => FieldVal.leB (sortKey f a) (sortKey f b)
  | .desc => FieldVal.leB (sortKey f b) (sortKey f a)

/-- The sort relation as a decidable proposition. -/
def applySortRel (f : SearchField) (ord : SortOrder) (a b : Student) : Prop :=
  sortLeB f ord a b = true

instance applySortRelDecidable (f : SearchField) (ord : SortOrder) :
    DecidableRel (applySortRel f ord) :=
  fun a b => inferInstanceAs (Decidable (sortLeB f ord a b = true))

/-- The `AttributeError` raised by `get_sort_key` when the sort field is
a plain str. -/
def attrErrorSortFieldValue : String :=
  "AttributeError: sort_field is a plain str and has no value attribute"

/-- `SearchService._apply_sorting` (`search.py` lines 614-632).
`get_sort_key` reads `query.sort_field.value` (line 618): when the sort
field was explicitly supplied it is a plain str and the key function
raises `AttributeError` as soon as `sorted` evaluates a key, i.e. on
every non-empty list.  When the field kept its pydantic default (the
enum `CREATED_AT`) the list is sorted stably by the key; `reverse` comes
from `query.sort_order == SortOrder.DESC` (line 630), a string-enum
comparison that works for enum and str alike.  Python's `sorted` is
stable, and insertion sort with the same total preorder produces the
identical (unique stable-sorted) list. -/
def apply_sorting (students : List Student) (q : SearchQuery) :
    Except String (List Student) :=
  match q.sort_field with
  | .supplied _ =>
      if students.isEmpty then .ok []
      else .error attrErrorSortFieldValue
  | .defaulted f =>
      .ok (List.insertionSort (applySortRel f q.sort_order.val) students)

/-- The error message of the wrapping `AppError` raised for any
unexpected exception in `search_students` (`search.py` lines 272-276). -/
def searchFailedMsg : String := "Student search operation failed"

/-- Errors surfacing from `search_students`: a re-raised
`ValidationError` of `_validate_search_query`, or the wrapping `AppError`
for anything unexpected (the `.value` AttributeErrors and comparison
TypeErrors included). -/
inductive SearchExc
  | validationError (msg : String)
  | appError (msg : String)
deriving DecidableEq, Repr

/-- Steps 2-4 of the search pipeline: snapshot via
`list_students(limit=10000, offset=0)`, structured filtering, text
search.  The resulting list's length is the reported `filtered_count`. -/
def pipelineFiltered (store : List Student) (q : SearchQuery) :
    Except String (List Student) :=
  match build_firestore_filters q with
  | .error e => .error e
  | .ok fcs =>
      match execute_filtered_query (list_students store 10000 0) fcs with
      | .error e => .error e
      | .ok f0 => apply_text_search f0 q

/-- `SearchService.search_students` (`search.py` lines 128-276), with the
store contents as environment, in source order: the entry `logger.info`
evaluates `query.sort_field.value` (line 156), raising for an explicitly
supplied sort field; validation (`ValidationError` re-raised as-is);
filtering and text search, whose AttributeErrors/TypeErrors wrap into the
generic `AppError`; sorting; then the success-path audit details evaluate
`query.sort_order.value` (line 228), raising for an explicitly supplied
sort order; finally the slice `[offset : offset + limit]` and the counts
and page info.  (The audit sink itself never raises; the timing metadata
is omitted.) -/
def search_students (store : List Student) (q : SearchQuery) :
    Except SearchExc SearchResultModel :=
  match q.sort_field with
  | .supplied _ => .error (.appError searchFailedMsg)
  | .defaulted _ =>
    match validate_search_query q with
    | some msg => .error (.validationError msg)
    | none =>
      match pipelineFiltered store q with
      | .error _ => .error (.appError searchFailedMsg)
      | .ok filtered =>
          match apply_sorting filtered q with
          | .error _ => .error (.appError searchFailedMsg)
          | .ok sortedStudents =>
              match q.sort_order with
              | .supplied _ => .error (.appError searchFailedMsg)
              | .defaulted _ =>
                  .ok ⟨(sortedStudents.drop q.offset).take q.limit,
                    (list_students store 10000 0).length,
                    filtered.length,
                    ⟨q.limit, q.offset, q.offset / q.limit + 1,
                      (filtered.length + q.limit - 1) / q.limit,
                      decide (q.offset + q.limit < filtered.length),
                      decide (q.offset > 0)⟩⟩

/-- Concrete witness for C3: a two-record store, sorted by `created_at`
descending, `limit = 1`, `offset = 1`. -/
def wStudentA : Student :=
  ⟨"a1", "Alice", "alice@x.co", none, "USA", none, "Exploring", 1, 1, 1⟩

/-- Second record of the C3 witness store. -/
def wStudentB : Student :=
  ⟨"b1", "Bob", "bob@x.co", none, "USA", none, "Applying", 2, 2, 2⟩

/-- The C3 witness query: everything left at its pydantic default except
`limit = 1`, `offset = 1` (so all enum fields are still enums and the
search completes). -/
def wQuery : SearchQuery :=
  ⟨none, .defaulted [.name, .email], [], [], none, none,
    .defaulted .created_at, .defaulted .desc, 1, 1⟩

/-- A VALID query carrying one structured equality filter (whitelisted
operator), used to show that filtered searches crash. -/
def filterQuery : SearchQuery :=
  ⟨none, .defaulted [.name, .email],
    [⟨.application_status, "eq", .single (.s "Exploring")⟩],
    [], none, none, .defaulted .created_at, .defaulted .desc, 50, 0⟩

/-- Record named "John Doe" from the C4 scenario. -/
def johnDoe : Student :=
  ⟨"j1", "John Doe", "jd@x.co", none, "USA", none, "Exploring", 0, 0, 0⟩

/-- Record named "Jon Lee" from the C4 scenario. -/
def jonLee : Student :=
  ⟨"j2", "Jon Lee", "jl@x.co", none, "USA", none, "Exploring", 0, 0, 0⟩

/-- Record named "Johnny Five" from the C4 scenario. -/
def johnnyFive : Student :=
  ⟨"j3", "Johnny Five", "j5@x.co", none, "USA", none, "Exploring", 0, 0, 0⟩

/-- The C4 scenario query: `text_query="John"` with `search_fields=[name]`
explicitly supplied (so the field list holds plain strs at runtime). -/
def johnQuery : SearchQuery :=
  ⟨some "John", .supplied [.name], [], [], none, none,
    .defaulted .created_at, .defaulted .desc, 50, 0⟩

/-- The same text query with `search_fields` left at its pydantic default
`[name, email]` (enums preserved). -/
def johnDefaultQuery : SearchQuery :=
  ⟨some "John", .defaulted [.name, .email], [], [], none, none,
    .defaulted .created_at, .defaulted .desc, 50, 0⟩

/-- Record with grade "A" for the C5 counterexample. -/
def gradeStudentA : Student :=
  ⟨"gA", "Ann", "ann@x.co", none, "USA", some "A", "Exploring", 0, 0, 0⟩

/-- Record with a missing grade for the C5 counterexample. -/
def gradeStudentN : Student :=
  ⟨"gN", "Ned", "ned@x.co", none, "USA", none, "Exploring", 0, 0, 0⟩

/-- Ascending sort on the (optional) grade field - a client-chosen sort,
so `sort_field` and `sort_order` are explicitly supplied (plain strs at
runtime). -/
def gradeAscQuery : SearchQuery :=
  ⟨none, .defaulted [.name, .email], [], [], none, none,
    .supplied .grade, .supplied .asc, 50, 0⟩

/-- First record of the C5 stability witness (equal `created_at` keys). -/
def dupStudentX : Student :=
  ⟨"x1", "Xa", "x@x.co", none, "USA", none, "Exploring", 5, 5, 5⟩

/-- Second record of the C5 stability witness. -/
def dupStudentY : Student :=
  ⟨"y1", "Yb", "y@x.co", none, "USA", none, "Applying", 5, 5, 5⟩

/-- A fully-defaulted query (sort by `created_at` descending, the
pydantic default) for the C5 stability witness. -/
def dupQuery : SearchQuery :=
  ⟨none, .defaulted [.name, .email], [], [], none, none,
    .defaulted .created_at, .defaulted .desc, 50, 0⟩

/-- One record of the 101-record store exhibiting the snapshot clamp. -/
def capStudent (i : Nat) : Student :=
  ⟨"s", "Stu", "s@x.co", none, "USA", none, "Exploring", i, i, i⟩

/-- A store holding 101 well-formed student records. -/
def capStore : List Student := (List.range 101).map capStudent

/-- A plain query (no filters, no text, every enum field at its pydantic
default, so none of the `.value` crashes fire) against the 101-record
store. -/
def capQuery : SearchQuery :=
  ⟨none, .defaulted [.name, .email], [], [], none, none,
    .defaulted .created_at, .defaulted .desc, 50, 0⟩

/-! ## Bulk import pipeline (`app/services/bulk_operations.py`) -/

/-- A cleaned CSV/JSON row: the non-empty stripped values keyed by header
name (`cleaned_row` in `_parse_csv_content`). -/
abbrev CsvRow := List (String × String)

/-- The row clean-up of `_parse_csv_content` (`bulk_operations.py` line
394-396): pair header names with cell values (as `csv.DictReader` does),
strip each value, and drop empty values. -/
def clean_csv_row (header : List String) (record : List String) : CsvRow :=
  (header.zip record).filterMap fun kv =>
    let v := pyStrip kv.2
    if v = "" then none else some (kv.1, v)

/-- `_parse_csv_content` (`bulk_operations.py` lines 374-419) on decoded
CSV text, given as the header row plus the data records: rows are
numbered from 2 (the header is row 1) and empty rows are dropped. -/
def parse_csv_rows (header : List String) (records : List (List String)) :
    List (Nat × CsvRow) :=
  records.enum.filterMap fun ir =>
    let cleaned := clean_csv_row header ir.2
    if cleaned.isEmpty then none else some (ir.1 + 2, cleaned)

/-- Python `row.get(key)` / `key in row` on a cleaned row. -/
def rowGet (row : CsvRow) (k : String) : Option String :=
  (row.find? fun kv => kv.1 == k).map Prod.snd

/-- `StudentCreate` pydantic model (`app/schemas/student.py` - the
creatable fields of `StudentBase`).  `last_active` is overwritten with the
current time by `StudentService.create_student` before persisting and is
omitted here. -/
structure StudentCreate where
  name : String
  email : String
  phone : Option String
  country : String
  grade : Option String
  application_status : String
deriving DecidableEq, Repr

/-- Lower-case or upper-case ASCII letter. -/
def isAlphaChar (c : Char) : Bool :=
  (97 ≤ c.toNat && c.toNat ≤ 122) || (65 ≤ c.toNat && c.toNat ≤ 90)

/-- ASCII digit. -/
def isDigitChar (c : Char) : Bool := 48 ≤ c.toNat && c.toNat ≤ 57

/-- The character class of the name validator's regex
(letters, whitespace, hyphen, apostrophe - code point 39 - and period). -/
def isNameChar (c : Char) : Bool :=
  isAlphaChar c || isPySpace c || c = '-' || c.toNat = 39 || c = '.'

/-- `validate_name` (`student.py` lines 70-82) plus the pydantic field
bounds `1 <= len <= 100`: strip, reject empty or non-matching names,
return the stripped name. -/
def validate_name (v : String) : Option String :=
  if v.data.length < 1 || v.data.length > 100 then none
  else
    let stripped := pyStrip v
    if stripped = "" then none
    else if stripped.data.all isNameChar then some stripped
    else none

/-- Modelled simplification of pydantic `EmailStr`: one `@` with a
non-empty local part and a non-empty domain that contains an interior
dot.  (The real validator enforces the same shape plus finer RFC rules
that no claim depends on.) -/
def validEmail (e : String) : Bool :=
  let l := e.data.takeWhile fun c => !(c = '@')
  let rest := e.data.dropWhile fun c => !(c = '@')
  match rest with
  | [] => false
  | _ :: domain =>
      !l.isEmpty && !domain.isEmpty && !(domain.contains '@') && domain.contains '.' &&
        !(domain.headD ' ' = '.') && !(domain.getLastD ' ' = '.')

/-- The email field validation (`EmailStr`). -/
def validate_email (v : String) : Option String :=
  if validEmail v then some v else none

/-- `validate_country_code` (`student.py` lines 100-114) plus the field
bounds `2 <= len <= 3`: exactly three letters, upper-cased for storage. -/
def validate_country (v : String) : Option String :=
  if v.data.length < 2 || v.data.length > 3 then none
  else if !(v.data.length = 3) then none
  else
    let up := pyUpper v
    if up.data.all isAlphaChar then some up
    else none

/-- `validate_phone` (`student.py` lines 84-98) plus the field bounds
`10 <= len <= 20`: 10-15 digits once non-digits are removed. -/
def validate_phone (v : String) : Option String :=
  if v.data.length < 10 || v.data.length > 20 then none
  else
    let digits := v.data.filter isDigitChar
    if digits.length < 10 || digits.length > 15 then none
    else some v

/-- The character class of the grade validator's regex. -/
def isGradeChar (c : Char) : Bool :=
  isAlphaChar c || isDigitChar c || isPySpace c || c = '-' || c = '.'

/-- `validate_grade` (`student.py` lines 116-128) plus the field bounds
`1 <= len <= 20`. -/
def validate_grade (v : String) : Option String :=
  if v.data.length < 1 || v.data.length > 20 then none
  else
    let stripped := pyStrip v
    if stripped = "" then none
    else if stripped.data.all isGradeChar then some stripped
    else none

/-- The `ApplicationStatus` enum values. -/
def application_status_values : List String :=
  ["Exploring", "Shortlisting", "Applying", "Submitted"]

/-- The case-insensitive status match of `_convert_row_to_student_create`
(`bulk_operations.py` lines 596-605); an unmatched raw value fails the
subsequent enum validation. -/
def match_status (v : String) : Option String :=
  application_status_values.find? fun s => pyLower s == pyLower v

/-- `_convert_row_to_student_create` (`bulk_operations.py` lines 572-624)
followed by `StudentCreate(**student_data)` validation: `none` models the
pydantic `ValidationError` raised for a missing required field (name,
email, country) or any failing field validator.  (A `last_active` column
feeds the service-overwritten timestamp and is not modelled.) -/
def convert_row_to_student_create (row : CsvRow) : Option StudentCreate :=
  match rowGet row "name", rowGet row "email", rowGet row "country" with
  | some nameRaw, some emailRaw, some countryRaw =>
      match validate_name nameRaw, validate_email emailRaw, validate_country countryRaw with
      | some nm, some em, some co =>
          match (match rowGet row "phone" with
                 | none => some none
                 | some p => (validate_phone p).map some) with
          | none => none
          | some ph =>
              match (match rowGet row "grade" with
                     | none => some none
                     | some g => (validate_grade g).map some) with
              | none => none
              | some gr =>
                  match (match rowGet row "application_status" with
                         | none => some "Exploring"
                         | some sv => match_status sv) with
                  | none => none
                  | some st => some ⟨nm, em, ph, co, gr, st⟩
      | _, _, _ => none
  | _, _, _ => none

/-- One structured per-row error of `_process_import_rows` (row number
plus the error kind; the code also echoes the submitted data and
field-level messages). -/
structure ImportRowError where
  row_number : Nat
  error_type : String
deriving DecidableEq, Repr

/-- `ImportResult` (`bulk_operations.py` lines 40-55), without the
timing field the caller fills in afterwards. -/
structure ImportResultM where
  total_rows : Nat
  successful_imports : Nat
  failed_imports : Nat
  errors : List ImportRowError
  created_student_ids : List String
deriving DecidableEq, Repr

/-- One iteration of the row loop of `_process_import_rows`
(`bulk_operations.py` lines 483-561).  `create` models
`student_service.create_student` (argument: how many creations happened
so far, so the environment can mint ids); a raised exception from it is
caught per row and recorded, exactly like a validation failure. -/
def import_row_step (create : Nat → StudentCreate → Except String String)
    (validate_only : Bool) (acc : ImportResultM) (r : Nat × CsvRow) : ImportResultM :=
  match convert_row_to_student_create r.2 with
  | none =>
      { acc with failed_imports := acc.failed_imports + 1,
                 errors := acc.errors ++ [⟨r.1, "ValidationError"⟩] }
  | some sc =>
      if validate_only then
        { acc with successful_imports := acc.successful_imports + 1 }
      else
        match create acc.created_student_ids.length sc with
        | .ok newId =>
            { acc with successful_imports := acc.successful_imports + 1,
                       created_student_ids := acc.created_student_ids ++ [newId] }
        | .error msg =>
            { acc with failed_imports := acc.failed_imports + 1,
                       errors := acc.errors ++ [⟨r.1, msg⟩] }

/-- `_process_import_rows` (`bulk_operations.py` lines 469-570): every
row is processed independently in order, starting from the zeroed
counters with `total_rows = len(rows)`. -/
def process_import_rows (create : Nat → StudentCreate → Except String String)
    (validate_only : Bool) (rows : List (Nat × CsvRow)) : ImportResultM :=
  rows.foldl (import_row_step create validate_only) ⟨rows.length, 0, 0, [], []⟩

/-- Header of the C8 scenario CSV. -/
def c8Header : List String := ["name", "email", "country"]

/-- The three data rows of the C8 scenario CSV: the first lacks the email
value. -/
def c8Records : List (List String) :=
  [["Alice Smith", "", "USA"],
   ["Bob Jones", "bob@example.com", "CAN"],
   ["Carol White", "carol@example.com", "GBR"]]

/-- A store in which every create succeeds, minting sequential ids. -/
def c8Create : Nat → StudentCreate → Except String String :=
  fun n _ => .ok ("id" ++ toString n)

/-! ## Theorems -/

/-- C9: the three provider-reported token failures are NOT discriminable.
In `firebase_admin`, `ExpiredIdTokenError` and `RevokedIdTokenError` are
subclasses of `InvalidIdTokenError`, so the first `except` clause of
`verify_token` catches all three conditions: invalid, expired and revoked
tokens all produce the SAME `AuthError` message and kind
("Invalid authentication token" / "Token validation failed"), and the
dedicated expired/revoked branches are dead code - contrary to the
claim, an expired token's error is indistinguishable from the invalid and
revoked ones. -/
theorem C9_token_errors_collapse :
    verify_token .expiredToken
      = .error (.authError "Invalid authentication token" "Token validation failed")
    ∧ verify_token .revokedToken
      = .error (.authError "Invalid authentication token" "Token validation failed")
    ∧ verify_token .invalidToken
      = .error (.authError "Invalid authentication token" "Token validation failed")
    ∧ isExpiredIdTokenError .expiredToken = true
    ∧ isInvalidIdTokenError .expiredToken = true
    ∧ isRevokedIdTokenError .revokedToken = true
    ∧ isInvalidIdTokenError .revokedToken = true := by
  exact ⟨rfl, rfl, rfl, rfl, rfl, rfl, rfl⟩

/-- C2: `log_action` does return normally for every behaviour of the
audit store - but only because it always takes the exception path:
building the `AuditLogEntry` evaluates `user.role.value` on a plain-str
role (`use_enum_values`) inside the `try`, so every call raises
`AttributeError` before the store write, is caught, and returns the
sentinel `"audit_log_failed"` regardless of whether persisting would have
succeeded.  The stored-document-id return promised by the claim and the
docstring is unreachable: no audit event is ever persisted. -/
theorem C2_log_action_always_sentinel :
    (∀ (user : AuthenticatedUser) (action target_type : String)
        (target_id : Option String) (severity : String)
        (details : List (String × String)) (success : Bool)
        (error_message : Option String) (write : AuditLogEntry → AuditWriteResult),
        log_action user action target_type target_id severity details success
          error_message write = "audit_log_failed")
    ∧ (∀ (user : AuthenticatedUser) (action target_type : String)
        (target_id : Option String) (severity : String)
        (details : List (String × String)) (success : Bool)
        (error_message : Option String),
        build_audit_entry user action target_type target_id severity details success
          error_message = .error auditAttrError) := by
  constructor
  · intro user action target_type target_id severity details success error_message write
    rfl
  · intro user action target_type target_id severity details success error_message
    rfl

/-- C10: when the audit-store query itself fails, `get_audit_logs` returns
the empty list rather than raising, which is exactly the result of a
successful query with zero matching documents - the caller cannot tell the
two apart. -/
theorem C10_audit_read_absorbs_outage (msg : String) :
    get_audit_logs (.failure msg) = []
    ∧ get_audit_logs (.failure msg) = get_audit_logs (.ok []) := by
  exact ⟨rfl, rfl⟩

/-- C7: for a subject with no role record, `get_user_role` creates a
default record with role `"staff"` (timestamps now, status active) and
returns staff; for an existing record whose role string is outside the
closed admin/staff enum, it writes the corrected `"staff"` role back and
returns staff. -/
theorem C7_role_self_healing :
    (∀ now, get_user_role .missing now = .ok (.staff, .createdDefault (defaultUserDoc now))
        ∧ (defaultUserDoc now).role = some "staff")
    ∧ (∀ doc r now, doc.role = some r → parseUserRole r = none →
        get_user_role (.found doc) now = .ok (.staff, .correctedRole "staff")) := by
  constructor
  · intro now
    exact ⟨rfl, rfl⟩
  · intro doc r now hr hparse
    simp [get_user_role, hr, hparse]

/-- Witness for C7 at `now = 0` and a record whose stored role string is
`"superuser"` (outside the enum). -/
theorem C7_role_self_healing_witness :
    get_user_role .missing 0 = .ok (.staff, .createdDefault (defaultUserDoc 0))
    ∧ get_user_role (.found ⟨some "superuser", none, none, none⟩) 0
      = .ok (.staff, .correctedRole "staff") := by
  constructor
  · exact (C7_role_self_healing.1 0).1
  · exact C7_role_self_healing.2 ⟨some "superuser", none, none, none⟩ "superuser" 0
      rfl (by decide)

/-- C1: the AuthError half of the claim holds - a request with a missing
credential (shown here), or a malformed or unverifiable token, makes the
pipeline raise `AuthError` - but the ForbiddenError half does not: for a
verified staff user hitting an admin-only guard, `role_checker` eagerly
evaluates a log f-string containing `user.role.value` on the plain-str
role (`use_enum_values`) before the `raise ForbiddenError` line, so the
pipeline escapes with an unhandled `AttributeError` (HTTP 500) and never
raises `ForbiddenError`; indeed `role_checker` raises that
`AttributeError` on every input whatsoever. -/
theorem C1_role_guard_crashes :
    require_role_pipeline [UserRole.admin] (some ("Bearer", "tok"))
        (.ok (some "u1") (some "a@b.co") none)
        (.found ⟨some "staff", none, none, none⟩) 0
      = .error attrErrorRoleValue
    ∧ attrErrorRoleValue.isForbidden = false
    ∧ require_role_pipeline [UserRole.admin] none
        (.ok (some "u1") (some "a@b.co") none)
        (.found ⟨some "staff", none, none, none⟩) 0
      = .error (.authError "Authentication required" "Missing Authorization header")
    ∧ (∀ (required : List UserRole) (user : AuthenticatedUser),
        role_checker required user = .error attrErrorRoleValue) := by
  refine ⟨rfl, rfl, rfl, ?_⟩
  intro required user
  unfold role_checker
  split <;> rfl

/-- Reflexivity of the Python string comparison. -/
theorem charListLe_refl : ∀ a : List Char, charListLe a a = true
  | [] => rfl
  | c :: cs => by
      simp only [charListLe]
      rw [if_neg (Nat.lt_irrefl _), if_neg (Nat.lt_irrefl _)]
      exact charListLe_refl cs

/-- Totality of the Python string comparison. -/
theorem charListLe_total : ∀ a b : List Char, charListLe a b = true ∨ charListLe b a = true
  | [], _ => Or.inl rfl
  | _ :: _, [] => Or.inr rfl
  | a :: as, b :: bs => by
      simp only [charListLe]
      rcases Nat.lt_trichotomy a.toNat b.toNat with h | h | h
      · left; rw [if_pos h]
      · rw [if_neg (by omega), if_neg (by omega), if_neg (by omega), if_neg (by omega)]
        exact charListLe_total as bs
      · right; rw [if_pos h]

/-- Transitivity of the Python string comparison. -/
theorem charListLe_trans : ∀ a b c : List Char,
    charListLe a b = true → charListLe b c = true → charListLe a c = true
  | [], _, _, _, _ => rfl
  | _ :: _, [], _, h1, _ => by simp [charListLe] at h1
  | _ :: _, _ :: _, [], _, h2 => by simp [charListLe] at h2
  | a :: as, b :: bs, c :: cs, h1, h2 => by
      simp only [charListLe] at h1 h2 ⊢
      rcases Nat.lt_trichotomy a.toNat c.toNat with h | h | h
      · rw [if_pos h]
      · rw [if_neg (by omega), if_neg (by omega)]
        by_cases hab : a.toNat < b.toNat
        · rw [if_neg (by omega), if_pos (by omega)] at h2
          exact absurd h2 (by simp)
        · by_cases hba : b.toNat < a.toNat
          · rw [if_neg hab, if_pos hba] at h1
            exact absurd h1 (by simp)
          · rw [if_neg hab, if_neg hba] at h1
            rw [if_neg (by omega), if_neg (by omega)] at h2
            exact charListLe_trans as bs cs h1 h2
      · exfalso
        by_cases hab : a.toNat < b.toNat
        · rw [if_neg (by omega), if_pos (by omega)] at h2
          exact absurd h2 (by simp)
        · by_cases hba : b.toNat < a.toNat
          · rw [if_neg hab, if_pos hba] at h1
            exact absurd h1 (by simp)
          · rw [if_neg (by omega), if_pos (by omega)] at h2
            exact absurd h2 (by simp)

/-- For a fixed sort field every sort key has one shape: a datetime key
for the three date fields, a string key otherwise. -/
theorem sortKey_shape (f : SearchField) (st : Student) :
    (isDateField f = true ∧ ∃ n, sortKey f st = .dt n)
    ∨ (isDateField f = false ∧ ∃ v, sortKey f st = .s v) := by
  cases f with
  | name => exact Or.inr ⟨rfl, st.name, rfl⟩
  | email => exact Or.inr ⟨rfl, st.email, rfl⟩
  | phone =>
      cases hp : st.phone with
      | none => exact Or.inr ⟨rfl, "", by simp [sortKey, getField, hp, isDateField]⟩
      | some p => exact Or.inr ⟨rfl, p, by simp [sortKey, getField, hp]⟩
  | country => exact Or.inr ⟨rfl, st.country, rfl⟩
  | grade =>
      cases hg : st.grade with
      | none => exact Or.inr ⟨rfl, "", by simp [sortKey, getField, hg, isDateField]⟩
      | some g => exact Or.inr ⟨rfl, g, by simp [sortKey, getField, hg]⟩
  | application_status => exact Or.inr ⟨rfl, st.application_status, rfl⟩
  | last_active => exact Or.inl ⟨rfl, st.last_active, rfl⟩
  | created_at => exact Or.inl ⟨rfl, st.created_at, rfl⟩
  | updated_at => exact Or.inl ⟨rfl, st.updated_at, rfl⟩

/-- Totality of the key comparison for a fixed sort field. -/
theorem sortKey_le_total (f : SearchField) (a b : Student) :
    FieldVal.leB (sortKey f a) (sortKey f b) = true
    ∨ FieldVal.leB (sortKey f b) (sortKey f a) = true := by
  rcases sortKey_shape f a with ⟨hd, n, ha⟩ | ⟨hd, v, ha⟩ <;>
    rcases sortKey_shape f b with ⟨hd2, m, hb⟩ | ⟨hd2, w, hb⟩
  · rw [ha, hb]
    simp only [FieldVal.leB, decide_eq_true_eq]
    omega
  · rw [hd] at hd2; exact Bool.noConfusion hd2
  · rw [hd] at hd2; exact Bool.noConfusion hd2
  · rw [ha, hb]
    simp only [FieldVal.leB, strLeB]
    exact charListLe_total v.data w.data

/-- Transitivity of the key comparison for a fixed sort field. -/
theorem sortKey_le_trans (f : SearchField) (a b c : Student)
    (h1 : FieldVal.leB (sortKey f a) (sortKey f b) = true)
    (h2 : FieldVal.leB (sortKey f b) (sortKey f c) = true) :
    FieldVal.leB (sortKey f a) (sortKey f c) = true := by
  rcases sortKey_shape f a with ⟨hd, n, ha⟩ | ⟨hd, v, ha⟩ <;>
    rcases sortKey_shape f b with ⟨hd2, m, hb⟩ | ⟨hd2, w, hb⟩ <;>
    rcases sortKey_shape f c with ⟨hd3, k, hc⟩ | ⟨hd3, x, hc⟩
  all_goals
    first
      | (rw [hd] at hd2; exact Bool.noConfusion hd2)
      | (rw [hd2] at hd3; exact Bool.noConfusion hd3)
      | (rw [ha, hb] at h1
         rw [hb, hc] at h2
         rw [ha, hc]
         simp only [FieldVal.leB, decide_eq_true_eq] at h1 h2 ⊢
         omega)
      | (rw [ha, hb] at h1
         rw [hb, hc] at h2
         rw [ha, hc]
         simp only [FieldVal.leB, strLeB] at h1 h2 ⊢
         exact charListLe_trans _ _ _ h1 h2)

/-- Reflexivity of the key comparison. -/
theorem sortKey_le_refl (f : SearchField) (a : Student) :
    FieldVal.leB (sortKey f a) (sortKey f a) = true := by
  rcases sortKey_shape f a with ⟨_, n, ha⟩ | ⟨_, v, ha⟩ <;> rw [ha]
  · simp [FieldVal.leB]
  · simp only [FieldVal.leB, strLeB]
    exact charListLe_refl v.data

/-- Totality of the sort relation of `_apply_sorting`. -/
theorem sortLeB_total (f : SearchField) (ord : SortOrder) (a b : Student) :
    sortLeB f ord a b = true ∨ sortLeB f ord b a = true := by
  cases ord <;> simp only [sortLeB]
  · exact sortKey_le_total f a b
  · exact sortKey_le_total f b a

/-- Transitivity of the sort relation of `_apply_sorting`. -/
theorem sortLeB_trans (f : SearchField) (ord : SortOrder) (a b c : Student)
    (h1 : sortLeB f ord a b = true) (h2 : sortLeB f ord b c = true) :
    sortLeB f ord a c = true := by
  cases ord <;> simp only [sortLeB] at h1 h2 ⊢
  · exact sortKey_le_trans f a b c h1 h2
  · exact sortKey_le_trans f c b a h2 h1

/-- C3 counterexample: a VALID query (one structured equality filter with
a whitelisted operator) on which the claim promises a result page, but on
which the program raises instead: `_build_firestore_query` evaluates
`filter_item.field.value` on the plain-str filter field
(`use_enum_values`), and `search_students` wraps the `AttributeError`
into the generic `AppError` - no page, counts or page-info are ever
returned. -/
theorem C3_valid_filter_query_crashes :
    validate_search_query filterQuery = none
    ∧ search_students [wStudentA, wStudentB] filterQuery
        = .error (.appError searchFailedMsg) := ⟨rfl, rfl⟩

/-- C3 amended: for every query on which `search_students` actually
returns a result - which requires the enum-defaulted sort field and sort
order, no structured filters, no date bounds, no status list, and the
default search fields whenever a text query is present, since every other
combination raises - the returned page is exactly the
`[offset, offset + limit)` slice of the filtered-and-sorted record set
(hence at most `limit` long), `filtered_count` is the size of the
filtered set before slicing, and `page_info.has_next` holds exactly when
`offset + limit` is less than `filtered_count`. -/
theorem C3_pagination_slice (store : List Student) (q : SearchQuery)
    (res : SearchResultModel) (filtered sortedOut : List Student)
    (h : search_students store q = .ok res)
    (hf : pipelineFiltered store q = .ok filtered)
    (hs : apply_sorting filtered q = .ok sortedOut) :
    res.students = (sortedOut.drop q.offset).take q.limit
    ∧ res.students.length ≤ q.limit
    ∧ res.filtered_count = sortedOut.length
    ∧ (res.page_info.has_next = true ↔ q.offset + q.limit < res.filtered_count) := by
  unfold search_students at h
  cases hsf : q.sort_field with
  | supplied f =>
      simp only [hsf] at h
      exact Except.noConfusion h
  | defaulted f =>
      simp only [hsf] at h
      cases hv : validate_search_query q with
      | some msg =>
          simp only [hv] at h
          exact Except.noConfusion h
      | none =>
          simp only [hv, hf, hs] at h
          cases hso : q.sort_order with
          | supplied o =>
              simp only [hso] at h
              exact Except.noConfusion h
          | defaulted o =>
              simp only [hso] at h
              injection h with h
              subst h
              refine ⟨rfl, ?_, ?_, ?_⟩
              · rw [List.length_take]
                exact min_le_left _ _
              · have h2 := hs
                simp only [apply_sorting, hsf] at h2
                injection h2 with h2
                rw [← h2]
                exact (List.length_insertionSort _ _).symm
              · exact decide_eq_true_iff

/-- Witness for C3 at the two-record store with the fully-defaulted query
(`limit = 1`, `offset = 1`). -/
theorem C3_pagination_slice_witness :
    search_students [wStudentA, wStudentB] wQuery
      = .ok ⟨[wStudentA], 2, 2, ⟨1, 1, 2, 2, false, true⟩⟩
    ∧ pipelineFiltered [wStudentA, wStudentB] wQuery = .ok [wStudentA, wStudentB]
    ∧ apply_sorting [wStudentA, wStudentB] wQuery = .ok [wStudentB, wStudentA]
    ∧ ([wStudentA] : List Student)
        = (([wStudentB, wStudentA] : List Student).drop 1).take 1
    ∧ ([wStudentA] : List Student).length ≤ 1
    ∧ (2 : Nat) = ([wStudentB, wStudentA] : List Student).length
    ∧ ((false : Bool) = true ↔ 1 + 1 < 2) := by
  have h : search_students [wStudentA, wStudentB] wQuery
      = .ok ⟨[wStudentA], 2, 2, ⟨1, 1, 2, 2, false, true⟩⟩ := by rfl
  have hf : pipelineFiltered [wStudentA, wStudentB] wQuery
      = .ok [wStudentA, wStudentB] := by rfl
  have hs : apply_sorting [wStudentA, wStudentB] wQuery
      = .ok [wStudentB, wStudentA] := by rfl
  have hc := C3_pagination_slice [wStudentA, wStudentB] wQuery
    ⟨[wStudentA], 2, 2, ⟨1, 1, 2, 2, false, true⟩⟩ [wStudentA, wStudentB]
    [wStudentB, wStudentA] h hf hs
  exact ⟨h, hf, hs, hc.1, hc.2.1, hc.2.2.1, hc.2.2.2⟩

/-- C4: the claim's own scenario supplies `search_fields=[name]`
explicitly, so at runtime the field list holds plain strs
(`use_enum_values`) and the per-field loop's `field.value` access raises
`AttributeError`: the search errors instead of returning "John Doe" and
"Johnny Five".  With the DEFAULT field list `[name, email]` (enums, since
pydantic leaves defaults unvalidated) the same records and text query
produce exactly the claimed matches - the AND-across-terms /
OR-across-fields semantics are implemented as claimed, and the explicit
field list is what breaks them. -/
theorem C4_text_search_crashes_on_scenario :
    apply_text_search [johnDoe, jonLee, johnnyFive] johnQuery
      = .error attrErrorFieldValue
    ∧ apply_text_search [johnDoe, jonLee, johnnyFive] johnDefaultQuery
      = .ok [johnDoe, johnnyFive] := ⟨rfl, rfl⟩

/-- C5 counterexample: the claim's ascending-sort-on-grade instance.  A
client-chosen sort field is necessarily supplied, hence a plain str at
runtime (`use_enum_values`), and `get_sort_key` reads
`query.sort_field.value`: the program raises `AttributeError` on the
first key evaluation instead of producing any ordering at all - in
particular not one with the missing-grade record last. -/
theorem C5_sorting_crash_counterexample :
    gradeAscQuery.sort_field = RtEnum.supplied SearchField.grade
    ∧ apply_sorting [gradeStudentA, gradeStudentN] gradeAscQuery
        = .error attrErrorSortFieldValue := ⟨rfl, rfl⟩

/-- C5 amended: an explicitly-supplied sort field makes `_apply_sorting`
raise `AttributeError` on every non-empty list, so no client-chosen sort
- and with it the whole missing-values rule, which only optional fields
could ever trigger - is reachable.  The only sorting path that runs is
the pydantic default sort field, the enum `CREATED_AT` (a field that is
never missing), and on it the sort behaves: the output is a permutation
of the input, ordered by the `created_at` key ascending or descending per
the sort order, and the sort is stable - records with equal `created_at`
keep their original relative order. -/
theorem C5_sorting_amended :
    (∀ (q : SearchQuery) (f : SearchField) (students : List Student),
        q.sort_field = RtEnum.supplied f → students ≠ [] →
        apply_sorting students q = .error attrErrorSortFieldValue)
    ∧ (∀ (q : SearchQuery) (students out : List Student),
        q.sort_field = RtEnum.defaulted SearchField.created_at →
        apply_sorting students q = .ok out →
        out.Perm students
        ∧ List.Sorted (applySortRel SearchField.created_at q.sort_order.val) out
        ∧ (∀ a b : Student, a.created_at = b.created_at →
            List.Sublist [a, b] students → List.Sublist [a, b] out)) := by
  constructor
  · intro q f students hsf hne
    simp only [apply_sorting, hsf]
    cases students with
    | nil => exact absurd rfl hne
    | cons s ss => rfl
  · intro q students out hsf hok
    simp only [apply_sorting, hsf] at hok
    injection hok with hok
    subst hok
    haveI : IsTotal Student (applySortRel SearchField.created_at q.sort_order.val) :=
      ⟨fun a b => sortLeB_total _ _ a b⟩
    haveI : IsTrans Student (applySortRel SearchField.created_at q.sort_order.val) :=
      ⟨fun a b c => sortLeB_trans _ _ a b c⟩
    refine ⟨List.perm_insertionSort _ _, List.sorted_insertionSort _ _, ?_⟩
    intro a b hab hsub
    have hkey : sortKey SearchField.created_at a = sortKey SearchField.created_at b := by
      simp [sortKey, getField, hab]
    have hrel : applySortRel SearchField.created_at q.sort_order.val a b := by
      unfold applySortRel
      cases q.sort_order.val <;> simp only [sortLeB]
      · rw [hkey]
        exact sortKey_le_refl SearchField.created_at b
      · rw [hkey]
        exact sortKey_le_refl SearchField.created_at b
    exact List.pair_sublist_insertionSort hrel hsub

/-- Witness for C5 amended: the crash conjunct at the claim's own
grade-ascending query on a one-record list, and the default-sort
conjuncts at a two-record list with equal `created_at` keys. -/
theorem C5_sorting_amended_witness :
    gradeAscQuery.sort_field = RtEnum.supplied SearchField.grade
    ∧ ([gradeStudentA] : List Student) ≠ []
    ∧ apply_sorting [gradeStudentA] gradeAscQuery = .error attrErrorSortFieldValue
    ∧ dupQuery.sort_field = RtEnum.defaulted SearchField.created_at
    ∧ apply_sorting [dupStudentX, dupStudentY] dupQuery
        = .ok [dupStudentX, dupStudentY]
    ∧ ([dupStudentX, dupStudentY] : List Student).Perm [dupStudentX, dupStudentY]
    ∧ List.Sorted (applySortRel SearchField.created_at dupQuery.sort_order.val)
        [dupStudentX, dupStudentY]
    ∧ List.Sublist [dupStudentX, dupStudentY] [dupStudentX, dupStudentY] := by
  have h1 := C5_sorting_amended.1 gradeAscQuery SearchField.grade [gradeStudentA]
    rfl (by decide)
  have hok : apply_sorting [dupStudentX, dupStudentY] dupQuery
      = .ok [dupStudentX, dupStudentY] := by rfl
  have h2 := C5_sorting_amended.2 dupQuery [dupStudentX, dupStudentY]
    [dupStudentX, dupStudentY] rfl hok
  exact ⟨rfl, by decide, h1, rfl, hok, h2.1, h2.2.1,
    h2.2.2 dupStudentX dupStudentY rfl (List.Sublist.refl _)⟩

/-- C6: evaluating the search pipeline over a store of 101 records
reports `total_count = 100`, not 101 - `StudentRepository.list_students`
clamps the requested limit of 10,000 down to 100, so the snapshot (and
with it the reported total and the dataset the pipeline operates on) is
capped at 100 records, contradicting the claimed 10,000-record cap. -/
theorem C6_snapshot_clamped_to_100 :
    capStore.length = 101
    ∧ (search_students capStore capQuery).toOption.map SearchResultModel.total_count
        = some 100
    ∧ (100 : Nat) ≠ 101 := by
  refine ⟨by simp [capStore], by rfl, by decide⟩

/-- The fold of `_process_import_rows` adds exactly one success or one
failure per row, whatever each row does. -/
theorem import_fold_sum (create : Nat → StudentCreate → Except String String)
    (vo : Bool) :
    ∀ (rows : List (Nat × CsvRow)) (acc : ImportResultM),
      (rows.foldl (import_row_step create vo) acc).successful_imports
        + (rows.foldl (import_row_step create vo) acc).failed_imports
      = acc.successful_imports + acc.failed_imports + rows.length
  | [], acc => by simp
  | r :: rs, acc => by
      rw [List.foldl_cons, import_fold_sum create vo rs (import_row_step create vo acc r)]
      unfold import_row_step
      cases hc : convert_row_to_student_create r.2 with
      | none =>
          simp only [hc, List.length_cons]
          omega
      | some sc =>
          cases hvo : vo with
          | true =>
              simp only [hc, hvo, if_true]
              simp only [List.length_cons]
              omega
          | false =>
              cases hcr : create acc.created_student_ids.length sc with
              | ok newId =>
                  simp only [hc, hvo, hcr, Bool.false_eq_true, if_false, List.length_cons]
                  omega
              | error msg =>
                  simp only [hc, hvo, hcr, Bool.false_eq_true, if_false, List.length_cons]
                  omega

/-- The fold of `_process_import_rows` never touches `total_rows`. -/
theorem import_fold_total (create : Nat → StudentCreate → Except String String)
    (vo : Bool) :
    ∀ (rows : List (Nat × CsvRow)) (acc : ImportResultM),
      (rows.foldl (import_row_step create vo) acc).total_rows = acc.total_rows
  | [], _ => rfl
  | r :: rs, acc => by
      rw [List.foldl_cons, import_fold_total create vo rs (import_row_step create vo acc r)]
      unfold import_row_step
      cases hc : convert_row_to_student_create r.2 with
      | none => simp [hc]
      | some sc =>
          cases hvo : vo with
          | true => simp [hc, hvo]
          | false =>
              cases hcr : create acc.created_student_ids.length sc with
              | ok newId => simp [hc, hvo, hcr]
              | error msg => simp [hc, hvo, hcr]

/-- C8: importing the 3-data-row CSV whose first data row lacks the email
field completes with `total_rows = 3`, `successful_imports = 2`,
`failed_imports = 1`, two created ids, and `errors[0].row_number = 2`
(1-indexed, the header being row 1); in general every row contributes
exactly one success or one failure - a validation failure on one row never
aborts the processing of the remaining rows. -/
theorem C8_row_isolation :
    (∀ (create : Nat → StudentCreate → Except String String) (vo : Bool)
        (rows : List (Nat × CsvRow)),
        (process_import_rows create vo rows).total_rows = rows.length
        ∧ (process_import_rows create vo rows).successful_imports
            + (process_import_rows create vo rows).failed_imports = rows.length)
    ∧ (process_import_rows c8Create false (parse_csv_rows c8Header c8Records)).total_rows = 3
    ∧ (process_import_rows c8Create false
        (parse_csv_rows c8Header c8Records)).successful_imports = 2
    ∧ (process_import_rows c8Create false
        (parse_csv_rows c8Header c8Records)).failed_imports = 1
    ∧ (process_import_rows c8Create false
        (parse_csv_rows c8Header c8Records)).created_student_ids.length = 2
    ∧ ((process_import_rows c8Create false
        (parse_csv_rows c8Header c8Records)).errors.head?).map ImportRowError.row_number
      = some 2 := by
  refine ⟨?_, by rfl, by rfl, by rfl, by rfl, by rfl⟩
  intro create vo rows
  constructor
  · unfold process_import_rows
    rw [import_fold_total]
  · unfold process_import_rows
    rw [import_fold_sum]
    simp
